import Mathlib

/-!
Shallow embedding of the crawler core (`src/crawler.go`) of the
staflund/gargantua repository.

Conventions of the embedding:
* Go strings are Lean `String`s; byte indexing is modelled as character
  indexing (all inputs relevant to the claims are ASCII).
* Go `(value, error)` returns are `Except CrawlError value`.
* A Go runtime panic (out-of-range slice) is modelled as `Option.none`
  of the enclosing computation.
* The external collaborators that are not part of `src/`
  (`getSitemapIndex`, `getXMLSitemap`, `isInvalidSitemapIndexContent`,
  `isInvalidXMLSitemapContent`, `readURL`, the goquery HTML parser) are
  modelled from the spec as explicit parameters / abstract outcomes.
* `net/url` (the Go standard library) is modelled by `url_Parse` and
  `GoURL.toString` for the URL shapes the crawler handles.
-/

/-! ### String helpers (models of Go `strings` functions, on `List Char`) -/

/-- `isPre pat l` : `pat` occurs at the start of `l` (model of Go
`strings.HasPre` + `fix`, character-wise). -/
def isPre : List Char → List Char → Bool
  | [], _ => true
  | _ :: _, [] => false
  | a :: as, b :: bs => a = b && isPre as bs

/-- Model of Go `strings.HasSuffix`. -/
def hasSuffixL (l suf : List Char) : Bool :=
  isPre suf.reverse l.reverse

/-- Model of Go `strings.TrimSuffix`: removes one copy of `suf` from the
end of `l` if present. -/
def trimSuffixL (l suf : List Char) : List Char :=
  if hasSuffixL l suf then (l.reverse.drop suf.length).reverse else l

/-- Splits a list at the first occurrence of `c`: returns the part before
it and, when `c` occurs, the part after it. -/
def splitAtFirst (c : Char) : List Char → (List Char × Option (List Char))
  | [] => ([], none)
  | a :: as =>
    if a = c then ([], some as)
    else
      let r := splitAtFirst c as
      (a :: r.1, r.2)

/-- Position of the first `'#'` in a list of characters (model of Go
`strings.Index(href, "#")`, `none` standing for `-1`). -/
def hashPos : List Char → Option Nat
  | [] => none
  | c :: rest => if c = '#' then some 0 else (hashPos rest).map (· + 1)

/-- Finds the first `"://"` and splits the list around it (scheme before,
remainder after); `none` when no `"://"` occurs. -/
def findSchemeSplit : List Char → Option (List Char × List Char)
  | ':' :: '/' :: '/' :: rest => some ([], rest)
  | a :: as => (findSchemeSplit as).map (fun r => (a :: r.1, r.2))
  | [] => none

/-! ### Errors and URLs -/

/-- The error values that flow through the crawler.  `invalid…Content`
are the sentinel classifications tested by `isInvalidSitemapIndexContent`
/ `isInvalidXMLSitemapContent`; `parseError` is a `url.Parse` failure;
`httpError` a transport failure; `neitherIndexNorSitemap` the top-level
error built by `getURLs` (crawler.go:189). -/
inductive CrawlError where
  | invalidSitemapIndexContent
  | invalidXMLSitemapContent
  | parseError (s : String)
  | httpError (s : String)
  | neitherIndexNorSitemap (u : String)
deriving DecidableEq, Repr

/-- Model of Go `net/url.URL` restricted to the fields the crawler uses. -/
structure GoURL where
  Scheme : String
  Host : String
  Path : String
  RawQuery : String
  Fragment : String
deriving DecidableEq, Repr

/-- Model of Go `url.URL.String()` for non-opaque, userinfo-free URLs:
`scheme:` then `//host` then path, `?query` when the query is nonempty
and `#fragment` when the fragment is nonempty.  Note the fragment IS part
of the string form. -/
def GoURL.toString (u : GoURL) : String :=
  (if u.Scheme = "" then "" else u.Scheme ++ ":") ++
  (if u.Scheme = "" ∧ u.Host = "" then "" else "//" ++ u.Host) ++
  u.Path ++
  (if u.RawQuery = "" then "" else "?" ++ u.RawQuery) ++
  (if u.Fragment = "" then "" else "#" ++ u.Fragment)

/-- Model of Go `url.Parse` for the URL shapes the crawler handles:
fails on ASCII control characters (as `net/url` does), splits off the
fragment at the first `'#'`, the query at the first `'?'`, and when a
`"://"` occurs takes the scheme before it and the host up to the next
`'/'`; a string without `"://"` parses as a host-less relative URL. -/
def url_Parse (s : String) : Except CrawlError GoURL :=
  let cs := s.toList
  if cs.any (fun c => c.toNat < 32 ∨ c.toNat = 127) then
    .error (.parseError s)
  else
    let fragSplit := splitAtFirst '#' cs
    let frag : List Char := fragSplit.2.getD []
    let qSplit := splitAtFirst '?' fragSplit.1
    let query : List Char := qSplit.2.getD []
    match findSchemeSplit qSplit.1 with
    | some r =>
      let hostSplit := splitAtFirst '/' r.2
      let path : List Char := match hostSplit.2 with
        | none => []
        | some p => '/' :: p
      .ok ⟨⟨r.1⟩, ⟨hostSplit.1⟩, ⟨path⟩, ⟨query⟩, ⟨frag⟩⟩
    | none =>
      .ok ⟨"", "", ⟨qSplit.1⟩, ⟨query⟩, ⟨frag⟩⟩

/-! ### The crawl drain loop (crawler.go:53-71) -/

/-- `URLCrawlRequest` (crawler.go:18-21). -/
structure URLCrawlRequest where
  ParentURL : GoURL
  TargetURL : GoURL
deriving DecidableEq, Repr

/-- The main drain loop of `crawl` (crawler.go:53-71): for each request
arriving on the crawl-request queue, skip it when its target's string
form is already in `visitedURLs`, otherwise mark the string as visited
and dispatch the request to the work queue.  The input list is the
sequence of requests received from the channel (seed entries and
worker-discovered links alike, in arrival order); the returned list is
the sequence of requests submitted to `WorkQueue`. -/
def crawlDrain : List URLCrawlRequest → List String → List URLCrawlRequest
  | [], _ => []
  | r :: rest, visited =>
    if r.TargetURL.toString ∈ visited then
      crawlDrain rest visited
    else
      r :: crawlDrain rest (r.TargetURL.toString :: visited)

/-! ### Link extraction (crawler.go:124-172) -/

/-- The inputs `getDependentRequests` reads from the parsed document:
the first `base[href]` attribute (`""` when absent, as goquery's `Attr`
returns) and the `href` attributes of all `a[href]` elements in document
order.  The goquery HTML parser itself is an external collaborator; this
structure is its output. -/
structure HTMLDoc where
  baseHref : String
  hrefs : List String
deriving DecidableEq, Repr

/-- The fragment cut (crawler.go:152-156) on a character list: when a
`'#'` occurs at position `p`, Go slices `href[0 : p-1]`; for `p = 0`
that slice is out of range and panics (`none`), otherwise it keeps the
first `p - 1` characters, dropping the character just before the `'#'`. -/
def stripFragmentL (l : List Char) : Option (List Char) :=
  match hashPos l with
  | none => some l
  | some 0 => none
  | some (p + 1) => some (l.take p)

/-- The fragment cut on strings. -/
def stripFragment (href : String) : Option String :=
  (stripFragmentL href.toList).map (fun l => ⟨l⟩)

/-- The effective base (crawler.go:134-139): the in-document base when
present (made absolute against scheme+host when root-relative), else
`scheme://host` of the page's own URL. -/
def effectiveBase (baseURL : GoURL) (doc : HTMLDoc) : String :=
  if doc.baseHref = "" then
    baseURL.Scheme ++ "://" ++ baseURL.Host
  else if isPre "/".toList doc.baseHref.toList then
    baseURL.Scheme ++ "://" ++ baseURL.Host ++ doc.baseHref
  else
    doc.baseHref

/-- Reference resolution (crawler.go:146-150): root-relative hrefs are
joined to `scheme://host`; hrefs that are not already `http://` or
`https://` absolute are joined to the effective base with a single
slash; absolute hrefs pass through. -/
def resolveHref (baseURL : GoURL) (base href : String) : String :=
  if isPre "/".toList href.toList then
    baseURL.Scheme ++ "://" ++ baseURL.Host ++ href
  else if ¬ (isPre "http://".toList href.toList)
       ∧ ¬ (isPre "https://".toList href.toList) then
    ⟨trimSuffixL base.toList "/".toList⟩ ++ "/" ++ href
  else
    href

/-- One iteration of the `a[href]` loop (crawler.go:142-169): resolve
the href, cut the fragment (outer `none` = panic), parse it (a parse
error drops the link: `some none`), drop it when its host differs from
the page's host, otherwise keep the parsed URL. -/
def processHref (baseURL : GoURL) (base href : String) :
    Option (Option GoURL) :=
  match stripFragment (resolveHref baseURL base href) with
  | none => none
  | some cut =>
    match url_Parse cut with
    | .error _ => some none
    | .ok hrefURL =>
      if hrefURL.Host ≠ baseURL.Host then some none
      else some (some hrefURL)

/-- The collection loop over all hrefs: a panic on any link aborts the
whole extraction (`none`); dropped links are skipped; kept links are
collected in document order. -/
def collectHrefs (baseURL : GoURL) (base : String) :
    List String → Option (List GoURL)
  | [] => some []
  | h :: rest =>
    match processHref baseURL base h with
    | none => none
    | some none => collectHrefs baseURL base rest
    | some (some u) => (collectHrefs baseURL base rest).map (u :: ·)

/-- `getDependentRequests` (crawler.go:124-172) on an already-parsed
document: `none` models the Go panic from the out-of-range fragment
slice. -/
def getDependentRequests (baseURL : GoURL) (doc : HTMLDoc) :
    Option (List GoURL) :=
  collectHrefs baseURL (effectiveBase baseURL doc) doc.hrefs

/-! ### Task execution (crawler.go:76-122) -/

instance {ε α : Type _} [DecidableEq ε] [DecidableEq α] :
    DecidableEq (Except ε α) := fun a b =>
  match a, b with
  | .error e, .error f =>
    if h : e = f then .isTrue (by rw [h])
    else .isFalse (fun k => h (by cases k; rfl))
  | .error _, .ok _ => .isFalse (fun k => Except.noConfusion k)
  | .ok _, .error _ => .isFalse (fun k => Except.noConfusion k)
  | .ok x, .ok y =>
    if h : x = y then .isTrue (by rw [h])
    else .isFalse (fun k => h (by cases k; rfl))

/-- The fetch outcome consumed by the `Execute` closure.  `readURL` and
the response accessors are external collaborators (not in `src/`);
`docResult` stands for the body bytes via the outcome of parsing them as
HTML (modelled from the spec: the fetcher returns body bytes, status
code, timing, content type and an is-HTML classification). -/
structure Response where
  isHTML : Bool
  docResult : Except String HTMLDoc
  responseSize : Nat
  statusCode : Nat
  startTime : Nat
  endTime : Nat
  contentType : String
deriving DecidableEq, Repr

/-- `WorkResult` (consumed by `updateStatistics`), crawler.go:105-117. -/
structure WorkResult where
  parentURL : GoURL
  url : GoURL
  workerID : Nat
  numberOfWorkers : Nat
  responseSize : Nat
  statusCode : Nat
  startTime : Nat
  endTime : Nat
  contentType : String
deriving DecidableEq, Repr

/-- The `Execute` closure built by `createWorkRequest`
(crawler.go:80-120), as a function of the fetch outcome: returns the
crawl requests pushed back into the queue and the `WorkResult` records
passed to `updateStatistics` (`none` = the extraction panicked).
A transport error returns with no record (crawler.go:84-86); an HTML
parse error returns with no record (crawler.go:92-94); otherwise the
discovered links are enqueued and exactly one record is produced. -/
def executeWork (urlToCrawl : URLCrawlRequest)
    (fetchResult : Except String Response)
    (workerID numberOfWorkers : Nat) :
    Option (List URLCrawlRequest × List WorkResult) :=
  match fetchResult with
  | .error _ => some ([], [])
  | .ok response =>
    let workResult : WorkResult :=
      { parentURL := urlToCrawl.ParentURL
        url := urlToCrawl.TargetURL
        workerID := workerID
        numberOfWorkers := numberOfWorkers
        responseSize := response.responseSize
        statusCode := response.statusCode
        startTime := response.startTime
        endTime := response.endTime
        contentType := response.contentType }
    if response.isHTML then
      match response.docResult with
      | .error _ => some ([], [])
      | .ok doc =>
        match getDependentRequests urlToCrawl.TargetURL doc with
        | none => none
        | some links =>
          some (links.map (fun link =>
                  { ParentURL := urlToCrawl.TargetURL, TargetURL := link }),
                [workResult])
    else
      some ([], [workResult])

/-! ### Sitemap resolution (crawler.go:174-244) -/

/-- A `<url><loc>` entry of a flat sitemap (transient parsed record). -/
structure SitemapURLEntry where
  Location : String
deriving DecidableEq, Repr

/-- A parsed flat sitemap: its list of `<url><loc>` entries. -/
structure XMLSitemap where
  URLs : List SitemapURLEntry
deriving DecidableEq, Repr

/-- A `<sitemap><loc>` entry of a sitemap index. -/
structure SitemapIndexEntry where
  Location : String
deriving DecidableEq, Repr

/-- A parsed sitemap index: its list of child-sitemap entries. -/
structure SitemapIndex where
  Sitemaps : List SitemapIndexEntry
deriving DecidableEq, Repr

/-- Modelled from the spec: the fetch-and-parse collaborators
`getSitemapIndex` and `getXMLSitemap` are not in `src/`; the spec says
each probe fetches the document at a URL and either parses it in the
respective shape or fails (a format mismatch being one failure mode).
An environment gives the outcome of each probe at each URL. -/
structure SitemapEnv where
  getSitemapIndex : GoURL → Except CrawlError SitemapIndex
  getXMLSitemap : GoURL → Except CrawlError XMLSitemap

/-- Modelled from the spec: `isInvalidSitemapIndexContent` is not in
`src/`; per the spec a format-probe failure is "a sitemap resolution
probe determines the content doesn't match the expected shape", so the
test recognizes exactly the invalid-index-content error (and a `nil`
error is not one). -/
def isInvalidSitemapIndexContent : Option CrawlError → Bool
  | some .invalidSitemapIndexContent => true
  | _ => false

/-- Modelled from the spec: `isInvalidXMLSitemapContent` is not in
`src/`; it recognizes exactly the invalid-flat-sitemap-content error. -/
def isInvalidXMLSitemapContent : Option CrawlError → Bool
  | some .invalidXMLSitemapContent => true
  | _ => false

/-- The Go `error` component of a `(urls, error)` return. -/
def errOf {α : Type _} : Except CrawlError α → Option CrawlError
  | .error e => some e
  | .ok _ => none

/-- The entry loop of `getURLsFromSitemap` (crawler.go:205-213): parse
each `<loc>` in order, failing on the first entry whose location does
not parse (discarding every URL gathered so far). -/
def parseLocs : List SitemapURLEntry → Except CrawlError (List GoURL)
  | [] => .ok []
  | e :: rest =>
    match url_Parse e.Location with
    | .error err => .error err
    | .ok u => (parseLocs rest).map (u :: ·)

/-- `getURLsFromSitemap` (crawler.go:196-216): fetch/parse the document
as a flat sitemap, then parse every entry location. -/
def getURLsFromSitemap (env : SitemapEnv) (xmlSitemapURL : GoURL) :
    Except CrawlError (List GoURL) :=
  match env.getXMLSitemap xmlSitemapURL with
  | .error e => .error e
  | .ok sitemap => parseLocs sitemap.URLs

/-- The child loop of `getURLsFromSitemapIndex` (crawler.go:227-240):
parse each child location and resolve it as a flat sitemap, failing on
the first child that fails to parse or to resolve (discarding the URLs
gathered from earlier children). -/
def resolveChildren (env : SitemapEnv) :
    List SitemapIndexEntry → Except CrawlError (List GoURL)
  | [] => .ok []
  | e :: rest =>
    match url_Parse e.Location with
    | .error err => .error err
    | .ok locationURL =>
      match getURLsFromSitemap env locationURL with
      | .error err => .error err
      | .ok sitemapUrls => (resolveChildren env rest).map (sitemapUrls ++ ·)

/-- `getURLsFromSitemapIndex` (crawler.go:218-244): fetch/parse the
document as a sitemap index, then resolve every child as a flat sitemap
(a child is resolved via `getURLsFromSitemap` only, never probed as an
index itself). -/
def getURLsFromSitemapIndex (env : SitemapEnv) (xmlSitemapURL : GoURL) :
    Except CrawlError (List GoURL) :=
  match env.getSitemapIndex xmlSitemapURL with
  | .error e => .error e
  | .ok sitemapIndex => resolveChildren env sitemapIndex.Sitemaps

/-- `getURLs` (crawler.go:174-194): run both probes; keep the URLs of
each successful probe (index URLs first); fail only when the index
error is invalid-index-content AND the sitemap error is
invalid-flat-sitemap-content, else return the gathered URLs. -/
def getURLs (env : SitemapEnv) (xmlSitemapURL : GoURL) :
    Except CrawlError (List GoURL) :=
  let indexRes := getURLsFromSitemapIndex env xmlSitemapURL
  let sitemapRes := getURLsFromSitemap env xmlSitemapURL
  let urls : List GoURL :=
    (match indexRes with | .ok us => us | .error _ => []) ++
    (match sitemapRes with | .ok us => us | .error _ => [])
  if isInvalidSitemapIndexContent (errOf indexRes)
     ∧ isInvalidXMLSitemapContent (errOf sitemapRes) then
    .error (.neitherIndexNorSitemap (GoURL.toString xmlSitemapURL))
  else
    .ok urls

/-! ### Auxiliary definitions and concrete instances used by the
theorems -/

/-- Whether a `(urls, error)` return carries a non-`nil` error. -/
def isErrE {α : Type _} : Except CrawlError α → Bool
  | .error _ => true
  | .ok _ => false

/-- A child entry of a sitemap index "fails": its location does not
parse as a URL, or it parses but its flat-sitemap resolution fails. -/
def childFails (env : SitemapEnv) (ent : SitemapIndexEntry) : Bool :=
  match url_Parse ent.Location with
  | .error _ => true
  | .ok u => isErrE (getURLsFromSitemap env u)

/-- The base URL of the spec's link-extraction example. -/
def exBase : GoURL := ⟨"http", "example.com", "/a/", "", ""⟩

/-- The document of the spec's link-extraction example: no `base`
element, hyperlinks `/x`, `y`, `http://example.com/z#frag`,
`http://other.com/w`. -/
def exDoc : HTMLDoc :=
  ⟨"", ["/x", "y", "http://example.com/z#frag", "http://other.com/w"]⟩

/-- What `getDependentRequests` actually returns on the example. -/
def exActual : List GoURL :=
  [⟨"http", "example.com", "/x", "", ""⟩,
   ⟨"http", "example.com", "/y", "", ""⟩,
   ⟨"http", "example.com", "/", "", ""⟩]

/-- A document whose `base[href]` is `"#"`: resolving the relative link
`y` against it yields `"#/y"`, whose first character is `'#'`. -/
def panicDoc : HTMLDoc := ⟨"#", ["y"]⟩

/-- A crawl request used in the task-execution examples. -/
def exReq : URLCrawlRequest :=
  ⟨⟨"http", "example.com", "/", "", ""⟩,
   ⟨"http", "example.com", "/p", "", ""⟩⟩

/-- A fetched response classified as HTML whose body fails to parse. -/
def exRespBadHTML : Response :=
  ⟨true, .error "parse failure", 10, 200, 1, 2, "text/html"⟩

/-- A fetched response that is not HTML. -/
def exRespPlain : Response :=
  ⟨false, .ok ⟨"", []⟩, 3, 200, 1, 2, "text/plain"⟩

/-- The sitemap root URL of the concrete sitemap examples. -/
def rootU : GoURL := ⟨"http", "s.com", "/sitemap.xml", "", ""⟩

/-- The child sitemap URL of the concrete sitemap examples. -/
def childU : GoURL := ⟨"http", "s.com", "/child.xml", "", ""⟩

/-- A location string `url.Parse` rejects (contains a control
character). -/
def badLoc : String := "http://s.com/\x01"

/-- Environment where both probes fail, the index probe with an
entry-level parse error (its child location contains a control
character) and the flat probe with a format mismatch. -/
def envC2 : SitemapEnv :=
  ⟨fun _ => .ok ⟨[⟨badLoc⟩]⟩,
   fun _ => .error .invalidXMLSitemapContent⟩

/-- Environment where the root parses both as an index referencing one
child with locations `{a, b}` and as a flat sitemap containing `{c}`. -/
def envC6 : SitemapEnv :=
  ⟨fun u => if u = rootU then .ok ⟨[⟨"http://s.com/child.xml"⟩]⟩
            else .error .invalidSitemapIndexContent,
   fun u => if u = rootU then .ok ⟨[⟨"http://s.com/c"⟩]⟩
            else if u = childU then
              .ok ⟨[⟨"http://s.com/a"⟩, ⟨"http://s.com/b"⟩]⟩
            else .error .invalidXMLSitemapContent⟩

/-- Environment where both probes fail with format mismatches. -/
def envFail : SitemapEnv :=
  ⟨fun _ => .error .invalidSitemapIndexContent,
   fun _ => .error .invalidXMLSitemapContent⟩

/-- Flat-sitemap probe outcomes shared by `env9` and `env9Alt`: the
child resolves as a flat sitemap with one URL, everything else is a
format mismatch. -/
def smMap9 : GoURL → Except CrawlError XMLSitemap :=
  fun u => if u = childU then .ok ⟨[⟨"http://s.com/a"⟩]⟩
           else .error .invalidXMLSitemapContent

/-- Environment whose root index references `childU`; probing the child
as an index fails. -/
def env9 : SitemapEnv :=
  ⟨fun u => if u = rootU then .ok ⟨[⟨"http://s.com/child.xml"⟩]⟩
            else .error .invalidSitemapIndexContent,
   smMap9⟩

/-- Same as `env9` except that probing any non-root URL as an index
would succeed with a grandchild entry — which must make no difference,
children never being probed as indexes. -/
def env9Alt : SitemapEnv :=
  ⟨fun u => if u = rootU then .ok ⟨[⟨"http://s.com/child.xml"⟩]⟩
            else .ok ⟨[⟨"http://s.com/grandchild.xml"⟩]⟩,
   smMap9⟩

/-- Environment whose flat sitemap at every URL has one good entry
followed by one entry whose location does not parse. -/
def env10 : SitemapEnv :=
  ⟨fun _ => .error .invalidSitemapIndexContent,
   fun _ => .ok ⟨[⟨"http://s.com/ok"⟩, ⟨badLoc⟩]⟩⟩

/-- A crawl request whose target carries no fragment. -/
def rFragA : URLCrawlRequest :=
  ⟨⟨"http", "e.com", "/", "", ""⟩, ⟨"http", "e.com", "/p", "", ""⟩⟩

/-- The same request except that its target carries fragment `f`. -/
def rFragB : URLCrawlRequest :=
  ⟨⟨"http", "e.com", "/", "", ""⟩, ⟨"http", "e.com", "/p", "", "f"⟩⟩

/-- The URLs a probe contributes to `getURLs` (crawler.go:179-186):
its URL list when it succeeded, nothing when it failed. -/
def okUrls : Except CrawlError (List GoURL) → List GoURL
  | .ok us => us
  | .error _ => []

/-! ### Theorems -/

theorem string_append_cancel_left (a x y : String) (h : a ++ x = a ++ y) :
    x = y := by
  have hd := congrArg String.data h
  simp only [String.data_append] at hd
  exact String.ext (List.append_cancel_left hd)

theorem fragSuffix_inj (f1 f2 : String)
    (h : (if f1 = "" then "" else "#" ++ f1)
       = (if f2 = "" then "" else "#" ++ f2)) : f1 = f2 := by
  by_cases h1 : f1 = ""
  · by_cases h2 : f2 = ""
    · exact h1.trans h2.symm
    · rw [if_pos h1, if_neg h2] at h
      exact absurd (congrArg String.data h) (by simp [String.data_append])
  · by_cases h2 : f2 = ""
    · rw [if_neg h1, if_pos h2] at h
      exact absurd (congrArg String.data h) (by simp [String.data_append])
    · rw [if_neg h1, if_neg h2] at h
      exact string_append_cancel_left "#" f1 f2 h

/-- C1: in the drain loop of `crawl`, each canonical URL string yields
at most one dispatched request (the dispatched targets' string forms
are pairwise distinct), and a string already in the seen-set is never
the target string of any dispatched request. -/
theorem crawl_unique_dispatch (reqs : List URLCrawlRequest)
    (visited : List String) :
    ((crawlDrain reqs visited).map
        (fun r => GoURL.toString r.TargetURL)).Nodup ∧
    ∀ s, s ∈ visited →
      s ∉ (crawlDrain reqs visited).map
        (fun r => GoURL.toString r.TargetURL) := by
  induction reqs generalizing visited with
  | nil => simp [crawlDrain]
  | cons r rest ih =>
    by_cases h : GoURL.toString r.TargetURL ∈ visited
    · simpa [crawlDrain, h] using ih visited
    · have ihh := ih (GoURL.toString r.TargetURL :: visited)
      simp only [crawlDrain, if_neg h, List.map_cons, List.nodup_cons,
        List.mem_cons]
      refine ⟨⟨ihh.2 _ (by simp), ihh.1⟩, ?_⟩
      intro s hs
      push_neg
      exact ⟨fun he => h (he ▸ hs), ihh.2 s (by simp [hs])⟩

/-- C1 witness. -/
theorem crawl_unique_dispatch_witness :
    ((crawlDrain [rFragA, rFragB] ["k"]).map
        (fun r => GoURL.toString r.TargetURL)).Nodup ∧
    ∀ s, s ∈ ["k"] →
      s ∉ (crawlDrain [rFragA, rFragB] ["k"]).map
        (fun r => GoURL.toString r.TargetURL) :=
  crawl_unique_dispatch [rFragA, rFragB] ["k"]

/-- C8 counterexample: two crawl requests whose targets agree on
scheme, host, path and query and differ only in their fragment are NOT
treated as the same URL by the seen-set: both are dispatched. -/
theorem crawl_fragment_variants_both_dispatched_cex :
    rFragA.TargetURL.Scheme = rFragB.TargetURL.Scheme ∧
    rFragA.TargetURL.Host = rFragB.TargetURL.Host ∧
    rFragA.TargetURL.Path = rFragB.TargetURL.Path ∧
    rFragA.TargetURL.RawQuery = rFragB.TargetURL.RawQuery ∧
    rFragA.TargetURL.Fragment ≠ rFragB.TargetURL.Fragment ∧
    crawlDrain [rFragA, rFragB] [] = [rFragA, rFragB] := by
  decide

/-- C8 amended: the dedup identity is the URL's full `String()` form,
scheme+host+path+query+fragment — the fragment is NOT stripped; two
target URLs equal except for distinct fragments have distinct seen-set
keys and both requests are dispatched. -/
theorem dedup_key_includes_fragment (sc ho pa q f1 f2 : String)
    (pu : GoURL) (hne : f1 ≠ f2) :
    GoURL.toString ⟨sc, ho, pa, q, f1⟩ ≠ GoURL.toString ⟨sc, ho, pa, q, f2⟩ ∧
    crawlDrain [⟨pu, ⟨sc, ho, pa, q, f1⟩⟩, ⟨pu, ⟨sc, ho, pa, q, f2⟩⟩] []
      = [⟨pu, ⟨sc, ho, pa, q, f1⟩⟩, ⟨pu, ⟨sc, ho, pa, q, f2⟩⟩] := by
  have hkey : GoURL.toString ⟨sc, ho, pa, q, f1⟩
      ≠ GoURL.toString ⟨sc, ho, pa, q, f2⟩ := by
    intro h
    exact hne (fragSuffix_inj f1 f2
      (string_append_cancel_left _ _ _ h))
  refine ⟨hkey, ?_⟩
  simp [crawlDrain, Ne.symm hkey]

/-- C8 amended witness. -/
theorem dedup_key_includes_fragment_witness :
    GoURL.toString ⟨"http", "e.com", "/p", "", ""⟩
      ≠ GoURL.toString ⟨"http", "e.com", "/p", "", "f"⟩ ∧
    crawlDrain [rFragA, rFragB] [] = [rFragA, rFragB] :=
  dedup_key_includes_fragment "http" "e.com" "/p" "" "" "f"
    ⟨"http", "e.com", "/", "", ""⟩ (by decide)

/-- C3 counterexample: on the spec's example
(base `http://example.com/a/`, links `/x`, `y`,
`http://example.com/z#frag`, `http://other.com/w`) extraction returns
`exActual`, which contains neither `http://example.com/a/y` (relative
links are resolved against `scheme://host`, not against the page path)
nor `http://example.com/z` (the fragment cut also drops the `z`). -/
theorem link_extraction_example_cex :
    getDependentRequests exBase exDoc = some exActual ∧
    "http://example.com/a/y" ∉ exActual.map GoURL.toString ∧
    "http://example.com/z" ∉ exActual.map GoURL.toString := by
  decide

/-- C3 amended: on the spec's example the extracted sequence is exactly
`http://example.com/x`, `http://example.com/y`,
`http://example.com/`; `http://other.com/w` is excluded. -/
theorem link_extraction_example :
    (getDependentRequests exBase exDoc).map (List.map GoURL.toString)
      = some ["http://example.com/x", "http://example.com/y",
              "http://example.com/"] := by
  decide

theorem hashPos_append (l1 rest : List Char) (h : '#' ∉ l1) :
    hashPos (l1 ++ rest) = (hashPos rest).map (· + l1.length) := by
  induction l1 with
  | nil =>
    cases hrest : hashPos rest <;> simp [hrest]
  | cons a as ih =>
    have ha : ¬(a = '#') := fun he => h (by simp [he])
    have h' : '#' ∉ as := fun hm => h (by simp [hm])
    rw [List.cons_append, hashPos, if_neg ha, ih h']
    cases hashPos rest <;> simp [Nat.add_assoc]

/-- C4: the fragment cut `href[0 : hashPosition-1]` (crawler.go:155)
truncates at the character before the first `'#'`, so the character
immediately preceding `'#'` is dropped as well; when `'#'` is the first
character the slice is out of range (the panic branch), and that branch
is reachable through `getDependentRequests` (a document whose base is
`"#"` and a relative link `y` resolve to the href `"#/y"`). -/
theorem fragment_cut_off_by_one :
    (∀ l1 c l2, '#' ∉ l1 → c ≠ '#' →
      stripFragmentL (l1 ++ c :: '#' :: l2) = some l1) ∧
    (∀ l, stripFragmentL ('#' :: l) = none) ∧
    getDependentRequests exBase panicDoc = none := by
  refine ⟨?_, ?_, by decide⟩
  · intro l1 c l2 h hc
    have h1 : hashPos (l1 ++ c :: '#' :: l2) = some (l1.length + 1) := by
      rw [hashPos_append l1 _ h]
      simp [hashPos, hc, Nat.add_comm]
    simp [stripFragmentL, h1, List.take_left]
  · intro l
    simp [stripFragmentL, hashPos]

/-- C4 witness. -/
theorem fragment_cut_off_by_one_witness :
    stripFragmentL ['a', 'b', '#', 'c'] = some ['a'] :=
  fragment_cut_off_by_one.1 ['a'] 'b' ['c'] (by decide) (by decide)

theorem processHref_host (baseURL : GoURL) (base href : String) (u : GoURL)
    (h : processHref baseURL base href = some (some u)) :
    u.Host = baseURL.Host := by
  unfold processHref at h
  cases hs : stripFragment (resolveHref baseURL base href) with
  | none => rw [hs] at h; simp at h
  | some cut =>
    rw [hs] at h
    dsimp only at h
    cases hp : url_Parse cut with
    | error e => rw [hp] at h; simp at h
    | ok v =>
      rw [hp] at h
      dsimp only at h
      by_cases hh : v.Host ≠ baseURL.Host
      · rw [if_pos hh] at h; simp at h
      · rw [if_neg hh] at h
        simp only [Option.some.injEq] at h
        push_neg at hh
        rw [← h]
        exact hh

theorem collectHrefs_same_host (baseURL : GoURL) (base : String)
    (hrefs : List String) (urls : List GoURL)
    (h : collectHrefs baseURL base hrefs = some urls) :
    ∀ u, u ∈ urls → u.Host = baseURL.Host := by
  induction hrefs generalizing urls with
  | nil =>
    simp only [collectHrefs, Option.some.injEq] at h
    subst h
    simp
  | cons a rest ih =>
    simp only [collectHrefs] at h
    cases hp : processHref baseURL base a with
    | none => rw [hp] at h; simp at h
    | some o =>
      rw [hp] at h
      cases o with
      | none => exact ih urls h
      | some u0 =>
        cases hc : collectHrefs baseURL base rest with
        | none => rw [hc] at h; simp at h
        | some us =>
          rw [hc] at h
          simp only [Option.map_some', Option.some.injEq] at h
          subst h
          intro u hu
          rcases List.mem_cons.mp hu with h1 | h2
          · subst h1
            exact processHref_host baseURL base a u hp
          · exact ih us hc u h2

/-- C7: every URL in the sequence returned by `getDependentRequests`
has host exactly equal to the base URL's host — any resolved href whose
host differs is dropped before collection. -/
theorem getDependentRequests_same_host (baseURL : GoURL) (doc : HTMLDoc)
    (urls : List GoURL) (h : getDependentRequests baseURL doc = some urls) :
    ∀ u, u ∈ urls → u.Host = baseURL.Host :=
  collectHrefs_same_host baseURL (effectiveBase baseURL doc) doc.hrefs urls h

/-- C7 witness. -/
theorem getDependentRequests_same_host_witness :
    GoURL.Host ⟨"http", "example.com", "/x", "", ""⟩ = GoURL.Host exBase :=
  getDependentRequests_same_host exBase exDoc exActual (by decide)
    ⟨"http", "example.com", "/x", "", ""⟩ (by decide)

/-- C5 counterexample: a task whose fetch returns a result (an
HTML-classified response whose body fails to parse) produces ZERO
records for `updateStatistics`, not one — the `Execute` closure returns
early on a `getDependentRequests` error before building the
`WorkResult` (crawler.go:92-94). -/
theorem executeWork_no_record_on_parse_error_cex :
    (executeWork exReq (Except.ok exRespBadHTML) 1 2).map
      (fun r => r.2.length) = some 0 := by
  decide

/-- C5 amended: when the fetch fails with a transport error no record
is produced; when the fetch returns a result, exactly one `WorkResult`
is passed to `updateStatistics` — except that an HTML response whose
body fails to parse as a document also produces no record (the
link-extraction early return). -/
theorem executeWork_stats (req : URLCrawlRequest)
    (fr : Except String Response) (wid n : Nat) :
    (∀ e, fr = .error e → executeWork req fr wid n = some ([], [])) ∧
    (∀ resp, fr = .ok resp → resp.isHTML = false →
      (executeWork req fr wid n).map (fun r => r.2.length) = some 1) ∧
    (∀ resp e, fr = .ok resp → resp.isHTML = true →
      resp.docResult = .error e →
      executeWork req fr wid n = some ([], [])) ∧
    (∀ resp doc links, fr = .ok resp → resp.isHTML = true →
      resp.docResult = .ok doc →
      getDependentRequests req.TargetURL doc = some links →
      (executeWork req fr wid n).map (fun r => r.2.length) = some 1) := by
  refine ⟨?_, ?_, ?_, ?_⟩
  · intro e he
    subst he
    rfl
  · intro resp he hh
    subst he
    simp [executeWork, hh]
  · intro resp e he hh hd
    subst he
    simp [executeWork, hh, hd]
  · intro resp doc links he hh hd hl
    subst he
    simp [executeWork, hh, hd, hl]

/-- C5 amended witness. -/
theorem executeWork_stats_witness :
    (executeWork exReq (Except.ok exRespPlain) 0 1).map
      (fun r => r.2.length) = some 1 :=
  (executeWork_stats exReq (Except.ok exRespPlain) 0 1).2.1
    exRespPlain rfl rfl

theorem isInvalidSitemapIndexContent_iff (o : Option CrawlError) :
    isInvalidSitemapIndexContent o = true
      ↔ o = some CrawlError.invalidSitemapIndexContent := by
  cases o with
  | none => simp [isInvalidSitemapIndexContent]
  | some e => cases e <;> simp [isInvalidSitemapIndexContent]

theorem isInvalidXMLSitemapContent_iff (o : Option CrawlError) :
    isInvalidXMLSitemapContent o = true
      ↔ o = some CrawlError.invalidXMLSitemapContent := by
  cases o with
  | none => simp [isInvalidXMLSitemapContent]
  | some e => cases e <;> simp [isInvalidXMLSitemapContent]

/-- C2 counterexample: an environment in which BOTH probes fail — the
index probe with an entry-level parse error (a child location carrying
a control character), the flat probe with a format mismatch — yet
`getURLs` returns `ok []`, not an error. -/
theorem getURLs_both_probes_fail_no_error_cex :
    isErrE (getURLsFromSitemapIndex envC2 rootU) = true ∧
    isErrE (getURLsFromSitemap envC2 rootU) = true ∧
    getURLs envC2 rootU = .ok [] := by
  decide

/-- C2 amended: `getURLs` returns an error iff both probes fail with a
format-mismatch error (invalid-index-content and
invalid-flat-sitemap-content respectively); when a probe fails for an
unrelated reason (e.g. an entry-level parse error) no error is
reported, and the URLs of any successful probe are returned. -/
theorem getURLs_error_iff (env : SitemapEnv) (root : GoURL) :
    (isErrE (getURLs env root) = true ↔
      errOf (getURLsFromSitemapIndex env root)
          = some CrawlError.invalidSitemapIndexContent ∧
      errOf (getURLsFromSitemap env root)
          = some CrawlError.invalidXMLSitemapContent) ∧
    (isErrE (getURLs env root) = false →
      getURLs env root
        = .ok (okUrls (getURLsFromSitemapIndex env root)
            ++ okUrls (getURLsFromSitemap env root))) := by
  constructor
  · rw [← isInvalidSitemapIndexContent_iff, ← isInvalidXMLSitemapContent_iff]
    simp only [getURLs]
    by_cases hc :
        isInvalidSitemapIndexContent
          (errOf (getURLsFromSitemapIndex env root)) = true ∧
        isInvalidXMLSitemapContent
          (errOf (getURLsFromSitemap env root)) = true
    · rw [if_pos hc]
      simpa [isErrE] using hc
    · rw [if_neg hc]
      simpa [isErrE] using hc
  · intro h
    simp only [getURLs] at h ⊢
    by_cases hc :
        isInvalidSitemapIndexContent
          (errOf (getURLsFromSitemapIndex env root)) = true ∧
        isInvalidXMLSitemapContent
          (errOf (getURLsFromSitemap env root)) = true
    · rw [if_pos hc] at h
      simp [isErrE] at h
    · rw [if_neg hc]
      rfl

/-- C2 amended witness. -/
theorem getURLs_error_iff_witness :
    getURLs envC2 rootU
      = .ok (okUrls (getURLsFromSitemapIndex envC2 rootU)
          ++ okUrls (getURLsFromSitemap envC2 rootU)) :=
  (getURLs_error_iff envC2 rootU).2 rfl

/-- C6: when the root parses as an index referencing one child sitemap
whose entries are `{a, b}` and, independently, as a flat sitemap whose
entry is `{c}`, `getURLs` merges both paths and returns `[a, b, c]`
with no error. -/
theorem getURLs_merges_index_and_flat (env : SitemapEnv)
    (root child a b c : GoURL) (locC locA locB locD : String)
    (h1 : env.getSitemapIndex root = .ok ⟨[⟨locC⟩]⟩)
    (h2 : url_Parse locC = .ok child)
    (h3 : env.getXMLSitemap child = .ok ⟨[⟨locA⟩, ⟨locB⟩]⟩)
    (h4 : url_Parse locA = .ok a)
    (h5 : url_Parse locB = .ok b)
    (h6 : env.getXMLSitemap root = .ok ⟨[⟨locD⟩]⟩)
    (h7 : url_Parse locD = .ok c) :
    getURLs env root = .ok [a, b, c] := by
  have hidx : getURLsFromSitemapIndex env root = .ok [a, b] := by
    simp [getURLsFromSitemapIndex, h1, resolveChildren, h2,
      getURLsFromSitemap, h3, parseLocs, h4, h5, Except.map]
  have hsm : getURLsFromSitemap env root = .ok [c] := by
    simp [getURLsFromSitemap, h6, parseLocs, h7, Except.map]
  simp [getURLs, hidx, hsm, errOf, isInvalidSitemapIndexContent,
    isInvalidXMLSitemapContent]

/-- C6 witness. -/
theorem getURLs_merges_index_and_flat_witness :
    getURLs envC6 rootU = .ok
      [⟨"http", "s.com", "/a", "", ""⟩,
       ⟨"http", "s.com", "/b", "", ""⟩,
       ⟨"http", "s.com", "/c", "", ""⟩] :=
  getURLs_merges_index_and_flat envC6 rootU childU
    ⟨"http", "s.com", "/a", "", ""⟩
    ⟨"http", "s.com", "/b", "", ""⟩
    ⟨"http", "s.com", "/c", "", ""⟩
    "http://s.com/child.xml" "http://s.com/a" "http://s.com/b"
    "http://s.com/c" rfl rfl rfl rfl rfl rfl rfl

theorem getURLsFromSitemap_ext (env env' : SitemapEnv)
    (h : env.getXMLSitemap = env'.getXMLSitemap) (u : GoURL) :
    getURLsFromSitemap env u = getURLsFromSitemap env' u := by
  simp [getURLsFromSitemap, h]

theorem resolveChildren_ext (env env' : SitemapEnv)
    (h : env.getXMLSitemap = env'.getXMLSitemap)
    (l : List SitemapIndexEntry) :
    resolveChildren env l = resolveChildren env' l := by
  induction l with
  | nil => rfl
  | cons e rest ih =>
    unfold resolveChildren
    cases url_Parse e.Location with
    | error err => rfl
    | ok loc =>
      dsimp only
      rw [getURLsFromSitemap_ext env env' h loc, ih]

/-- C9: sitemap-index resolution recurses exactly one level: a child
found via the index probe is resolved only through the flat-sitemap
probe, never itself probed as an index — the result of
`getURLsFromSitemapIndex` is unchanged under any change to the
index-probe outcomes at URLs other than the root (in particular a child
that is itself an index listing grandchildren contributes nothing via
that index content). -/
theorem index_children_never_probed_as_index (env env' : SitemapEnv)
    (root : GoURL)
    (hIdx : env.getSitemapIndex root = env'.getSitemapIndex root)
    (hSm : env.getXMLSitemap = env'.getXMLSitemap) :
    getURLsFromSitemapIndex env root = getURLsFromSitemapIndex env' root := by
  unfold getURLsFromSitemapIndex
  rw [hIdx]
  cases env'.getSitemapIndex root with
  | error e => rfl
  | ok idx => exact resolveChildren_ext env env' hSm idx.Sitemaps

/-- C9 witness: `env9Alt` probes every non-root URL as an index
successfully (with a grandchild entry) where `env9` fails; the resolved
URL sets coincide. -/
theorem index_children_never_probed_as_index_witness :
    getURLsFromSitemapIndex env9 rootU
      = getURLsFromSitemapIndex env9Alt rootU :=
  index_children_never_probed_as_index env9 env9Alt rootU rfl rfl

theorem parseLocs_fails (l : List SitemapURLEntry) (ent : SitemapURLEntry)
    (hm : ent ∈ l) (he : isErrE (url_Parse ent.Location) = true) :
    isErrE (parseLocs l) = true := by
  induction l with
  | nil => cases hm
  | cons a rest ih =>
    rcases List.mem_cons.mp hm with h1 | h2
    · subst h1
      unfold parseLocs
      cases hp : url_Parse ent.Location with
      | error err => simp [isErrE]
      | ok u => rw [hp] at he; simp [isErrE] at he
    · unfold parseLocs
      cases hp : url_Parse a.Location with
      | error err => simp [isErrE]
      | ok u =>
        have hrest := ih h2
        dsimp only
        cases hr : parseLocs rest with
        | error err => simp [isErrE, Except.map]
        | ok us => rw [hr] at hrest; simp [isErrE] at hrest

theorem resolveChildren_fails (env : SitemapEnv)
    (l : List SitemapIndexEntry) (ent : SitemapIndexEntry)
    (hm : ent ∈ l) (hf : childFails env ent = true) :
    isErrE (resolveChildren env l) = true := by
  induction l with
  | nil => cases hm
  | cons a rest ih =>
    rcases List.mem_cons.mp hm with h1 | h2
    · subst h1
      unfold resolveChildren
      unfold childFails at hf
      cases hp : url_Parse ent.Location with
      | error err => simp [isErrE]
      | ok loc =>
        rw [hp] at hf
        dsimp only at hf
        dsimp only
        cases hs : getURLsFromSitemap env loc with
        | error err => simp [isErrE]
        | ok us => rw [hs] at hf; simp [isErrE] at hf
    · unfold resolveChildren
      cases hp : url_Parse a.Location with
      | error err => simp [isErrE]
      | ok loc =>
        dsimp only
        cases hs : getURLsFromSitemap env loc with
        | error err => simp [isErrE]
        | ok us =>
          have hrest := ih h2
          dsimp only
          cases hr : resolveChildren env rest with
          | error err => simp [isErrE, Except.map]
          | ok vs => rw [hr] at hrest; simp [isErrE] at hrest

/-- C10: entry-level failures are all-or-nothing per probe: a flat
sitemap containing any entry whose location does not parse resolves to
an error (the parsed entries are discarded — an `Except.error` carries
no URLs), and a sitemap index containing any child that fails to parse
or to resolve resolves to an error likewise. -/
theorem sitemap_entry_failure_all_or_nothing :
    (∀ env root sm ent, SitemapEnv.getXMLSitemap env root = .ok sm →
      ent ∈ sm.URLs → isErrE (url_Parse ent.Location) = true →
      isErrE (getURLsFromSitemap env root) = true) ∧
    (∀ env root idx ent, SitemapEnv.getSitemapIndex env root = .ok idx →
      ent ∈ idx.Sitemaps → childFails env ent = true →
      isErrE (getURLsFromSitemapIndex env root) = true) := by
  constructor
  · intro env root sm ent hok hm he
    unfold getURLsFromSitemap
    rw [hok]
    exact parseLocs_fails sm.URLs ent hm he
  · intro env root idx ent hok hm hf
    unfold getURLsFromSitemapIndex
    rw [hok]
    exact resolveChildren_fails env idx.Sitemaps ent hm hf

/-- C10 witness. -/
theorem sitemap_entry_failure_all_or_nothing_witness :
    isErrE (getURLsFromSitemap env10 rootU) = true :=
  sitemap_entry_failure_all_or_nothing.1 env10 rootU
    ⟨[⟨"http://s.com/ok"⟩, ⟨badLoc⟩]⟩ ⟨badLoc⟩ rfl (by decide) (by decide)
